import Mathlib

/-!
# Verification of the vibeform backend server

Shallow embedding of the Express backend (`server.js`, provided as
`src/unnamed/part_002`): the two HTTP handlers `/api/playlist` and
`/api/experience`, together with the JavaScript value semantics they rely on
(truthiness, property access, object spread/assignment) and the exact strings
they build (search queries, Groq prompts, error messages).

External effects (the Spotify token endpoint, the Spotify search endpoint and
the Groq chat-completion endpoint, plus the platform `JSON.parse`) are
modelled as an environment record passed to each handler; the handler returns
the HTTP response it would produce together with the ordered list of outbound
calls it issues.
-/

namespace Vibeform

/-- JSON-like JavaScript runtime values.  `undefined` models JavaScript
`undefined`; it is never produced by `JSON.parse` but arises from absent
property accesses.  Numbers are modelled as integers (the program never
computes with them; only truthiness, i.e. comparison with 0, matters). -/
inductive JVal where
  | null : JVal
  | bool : Bool → JVal
  | num : Int → JVal
  | str : String → JVal
  | arr : List JVal → JVal
  | obj : List (String × JVal) → JVal
  | undefined : JVal

/-- JavaScript truthiness of a value (`if (v)`), as used by the handlers'
`!experience[section]`, `!playlist` and `items?.[0]` checks.  (`NaN` is not
representable in the integer model of numbers.) -/
def truthy : JVal → Bool
  | .null => false
  | .bool b => b
  | .num n => n != 0
  | .str s => !s.isEmpty
  | .arr _ => true
  | .obj _ => true
  | .undefined => false

/-- The indexed own properties of a JavaScript string (`{..."ab"}` yields
`{0: "a", 1: "b"}`); needed to give object spread its exact semantics on
non-object values. -/
def strIndexFields (s : String) : List (String × JVal) :=
  s.data.enum.map (fun p => (toString p.1, JVal.str (String.singleton p.2)))

/-- Property read `v[k]` on a value that is known not to be `null`/`undefined`
(those throw; see `jsGet`).  Absent properties read as `undefined`.
Objects produced by `JSON.parse` have unique keys, so first-match lookup
agrees with JavaScript object semantics. -/
def getProp : JVal → String → JVal
  | .obj fs, k => (((fs.find? (fun f => f.1 == k)).map Prod.snd).getD .undefined)
  | .str s, k => ((((strIndexFields s).find? (fun f => f.1 == k)).map Prod.snd).getD .undefined)
  | _, _ => .undefined

/-- Property read `v[k]` with JavaScript's throwing behaviour: reading a
property of `null` or `undefined` raises a `TypeError`. -/
def jsGet (v : JVal) (k : String) : Except String JVal :=
  match v with
  | .null => .error ("Cannot read properties of null (reading \x27" ++ k ++ "\x27)")
  | .undefined => .error ("Cannot read properties of undefined (reading \x27" ++ k ++ "\x27)")
  | _ => .ok (getProp v k)

/-- Own enumerable properties contributed by `{...v}` (object spread):
objects contribute their fields, strings their indexed characters, all other
primitives nothing. -/
def spreadFields : JVal → List (String × JVal)
  | .obj fs => fs
  | .str s => strIndexFields s
  | _ => []

/-- Set key `k` to `v` in a field list, JavaScript-style: an existing key
keeps its position and gets the new value, a new key is appended. -/
def setKey : List (String × JVal) → String → JVal → List (String × JVal)
  | [], k, v => [(k, v)]
  | f :: fs, k, v => if f.1 == k then (k, v) :: fs else f :: setKey fs k v

/-- Property assignment `v[k] = fv`.  The handlers only assign to values that
are objects (the validated experience), so the non-object branch is inert. -/
def setField (v : JVal) (k : String) (fv : JVal) : JVal :=
  match v with
  | .obj fs => .obj (setKey fs k fv)
  | _ => v

/-- Whether `chars` starts with `pat` (helper for substring search). -/
def charsStartWith : List Char → List Char → Bool
  | _, [] => true
  | [], _ :: _ => false
  | c :: cs, p :: ps => c == p && charsStartWith cs ps

/-- Whether `pat` occurs somewhere in `chars` (helper for substring search). -/
def charsContain : List Char → List Char → Bool
  | [], pat => pat.isEmpty
  | c :: cs, pat => charsStartWith (c :: cs) pat || charsContain cs pat

/-- JavaScript `message.includes(pat)`, used by the experience handler's
error mapping (`error.message?.includes('Groq')`). -/
def strContains (s pat : String) : Bool := charsContain s.data pat.data

/-! ## The mood normalisation of `/api/playlist`

`mood.toLowerCase().replace(/[^a-z\s]/g, '').replace(/\s+/g, ' ').trim()`.
Lowercasing is modelled on ASCII letters (the subsequent filter keeps only
`a`-`z` and whitespace, so this agrees with JavaScript on all ASCII input). -/

/-- The JavaScript `\s` (whitespace) character class. -/
def isJsSpace (c : Char) : Bool :=
  c == ' ' || c == '\t' || c == '\n' || c == '\r' || c == '\x0b' || c == '\x0c' ||
  c == '\u00a0' || c == '\u1680' || (0x2000 ≤ c.val && c.val ≤ 0x200a) ||
  c == '\u2028' || c == '\u2029' || c == '\u202f' || c == '\u205f' ||
  c == '\u3000' || c == '\ufeff'

/-- Characters kept by `replace(/[^a-z\s]/g, '')`. -/
def keepMoodChar (c : Char) : Bool := ('a' ≤ c && c ≤ 'z') || isJsSpace c

/-- Collapse runs of spaces to a single space (`replace(/\s+/g, ' ')`, after
every whitespace character has been mapped to a plain space). -/
def squeezeSpaces : List Char → List Char
  | [] => []
  | [c] => [c]
  | a :: b :: rest =>
    if a == ' ' && b == ' ' then squeezeSpaces (b :: rest)
    else a :: squeezeSpaces (b :: rest)

/-- Drop leading and trailing spaces (`trim()`; after the earlier replace all
remaining whitespace is a plain space). -/
def trimSpaces (l : List Char) : List Char :=
  ((l.dropWhile (fun c => c == ' ')).reverse.dropWhile (fun c => c == ' ')).reverse

/-- The `formattedMood` computation of the `/api/playlist` handler. -/
def formatMood (m : String) : String :=
  String.mk (trimSpaces (squeezeSpaces
    (((m.data.map Char.toLower).filter keepMoodChar).map
      (fun c => if isJsSpace c then ' ' else c))))

/-- The ordered fallback search queries of the `/api/playlist` handler,
built over the normalised mood `f`. -/
def playlistQueries (f : String) : List String :=
  [f ++ " playlist",
   f ++ " vibe playlist",
   f ++ " " ++ f ++ " playlist",
   f ++ " feel playlist"]


/-! ## JavaScript string coercion for `Array.prototype.join` -/

mutual

/-- How one array element prints inside `join` (JavaScript: `null` and
`undefined` print as the empty string inside `join`). -/
def jsJoinElem : JVal → String
  | .null => ""
  | .undefined => ""
  | .bool b => cond b "true" "false"
  | .num n => toString n
  | .str s => s
  | .arr xs => jsJoin "," xs
  | .obj _ => "[object Object]"

/-- JavaScript `array.join(sep)` (nested arrays join with `","`). -/
def jsJoin (sep : String) : List JVal → String
  | [] => ""
  | [x] => jsJoinElem x
  | x :: y :: rest => jsJoinElem x ++ sep ++ jsJoin sep (y :: rest)

end

/-! ## The Groq chat-completion request built by `/api/experience`

The system prompt is the exact template literal of the handler: a fixed
schema-fixing part followed by one of two mode-specific instruction texts
selected by `longMode`. -/

def experiencePromptHead : String :=
  "You are a creative experience generator that strictly follows instructions.\n            Generate a complete vibe card based on the user\x27s mood and available ingredients.\n            You MUST return ONLY a JSON object with the following structure and no other text:\n            \x7b\n              \"playlist\": \x7b\n                \"name\": \"string\",\n                \"description\": \"string\",\n                \"genre\": \"string\",\n                \"theme\": \"string\",\n                \"url\": \"string\"\n              \x7d,\n              \"recipe\": \x7b\n                \"title\": \"string\",\n                \"ingredients\": [\"string\"],\n                \"instructions\": \"string\"\n              \x7d,\n              \"movie\": \x7b\n                \"title\": \"string\",\n                \"year\": \"number\",\n                \"description\": \"string\",\n                \"genre\": \"string\",\n                \"streaming\": \"string\"\n              \x7d,\n              \"colorPalette\": \x7b\n                \"name\": \"string\",\n                \"colors\": [\n                  \x7b\n                    \"name\": \"string\",\n                    \"hex\": \"string\"\n                  \x7d\n                ]\n              \x7d,\n              \"meditation\": \x7b\n                \"prompt\": \"string\",\n                \"duration\": \"string\"\n              \x7d,\n              \"outfit\": \x7b\n                \"description\": \"string\",\n                \"season\": \"string\",\n                \"style\": \"string\",\n                \"colors\": [\"string\"]\n              \x7d,\n              \"writing\": \x7b\n                \"snippet\": \"string\",\n                \"theme\": \"string\"\n              \x7d\n            \x7d\n            \n            "

def experienceLongModeText : String :=
  "For the recipe, generate a complete creative recipe, with a fun name, a detailed list of at least 7 ingredients, and 7+ well-written cooking steps. Include serving suggestions and optional toppings.\n              For the movie, recommend a movie matching the mood with a detailed 3-4 sentence synopsis, the genre, streaming platform, and a deep explanation of why this movie fits the mood emotionally.\n              For the meditation, write a 7-10 sentence mini meditation script, with vivid calming imagery and specific breathing cues appropriate for the mood and duration.\n              For the color palette, include a detailed mood-based description of the color scheme and when/where someone might feel inspired by it, mentioning the emotional impact of the colors.\n              For the outfit, give a full outfit suggestion with 2-3 sentences on why it fits the mood and occasion, including specific clothing items, textures, and accessories.\n              For the writing snippet, provide a 6-8 sentence micro-poem or story excerpt that deeply emotionally resonates with the mood and strongly matches the tone (motivational, romantic, nostalgic, etc.), focusing on evocative language."

def experienceShortModeText : String :=
  "Keep descriptions concise, under 3 sentences for movie, meditation, outfit, and writing snippet. For the recipe, provide a brief summary and a short list of key ingredients and steps."

/-- The system prompt sent to Groq: schema part plus the mode branch of the
`${longMode ? ... : ...}` interpolation. -/
def experienceSystemPrompt (longMode : Bool) : String :=
  experiencePromptHead ++
    (if longMode then experienceLongModeText else experienceShortModeText)

/-- The user message of the Groq request:
`Generate a vibe card for mood: "${mood}"` plus, when the parsed ingredient
array is non-empty, ` with ingredients: ${ingredients.join(', ')}`. -/
def experienceUserPrompt (mood : String) (ingredients : List JVal) : String :=
  "Generate a vibe card for mood: \"" ++ mood ++ "\"" ++
    (if ingredients.length != 0 then " with ingredients: " ++ jsJoin ", " ingredients
     else "")

/-- One outbound chat-completion request, as constructed by the
`/api/experience` handler (`model`, two messages, `temperature: 0.7`,
`max_tokens: longMode ? 3000 : 2000`). -/
structure GroqRequest where
  model : String
  systemContent : String
  userContent : String
  temperature : Rat
  maxTokens : Nat

/-- The complete Groq request the `/api/experience` handler sends. -/
def mkGroqExperienceRequest (mood : String) (ingredients : List JVal)
    (longMode : Bool) : GroqRequest where
  model := "llama3-8b-8192"
  systemContent := experienceSystemPrompt longMode
  userContent := experienceUserPrompt mood ingredients
  temperature := 7 / 10
  maxTokens := if longMode then 3000 else 2000

/-! ## Responses, outbound calls and the external environment -/

/-- A response body: either an error object (`error` plus optional `details`)
or a JSON payload. -/
inductive Body where
  | errorBody (error : String) (details : Option String)
  | jsonBody (v : JVal)

/-- An HTTP response of a handler. -/
structure Response where
  status : Nat
  body : Body

/-- One outbound call issued by a handler, in issue order. -/
inductive Call where
  | groqCall (req : GroqRequest)
  | tokenCall
  | searchCall (query : String)

/-- Outcome of the Groq chat-completion call: an axios failure carrying the
upstream HTTP status when there was a response (`none` for network errors or
timeouts) and the thrown error message; a 2xx response whose body lacks
`choices[0].message.content`; or the returned content text. -/
inductive GroqOutcome where
  | fail (responseStatus : Option Nat) (message : String)
  | okNoContent
  | okContent (content : String)

/-- Outcome of `getSpotifyToken`'s token-endpoint call.  On any failure the
function catches the error and rethrows a plain
`Error('Failed to get Spotify token: ...')`, which carries NO attached
HTTP response. -/
inductive TokenOutcome where
  | ok (token : String)
  | fail (responseStatus : Option Nat) (message : String)

/-- Outcome of one Spotify search call for one query: an axios error, or the
list at `data.playlists.items` (a missing path behaves as the empty list for
both handlers, which only use `length > 0` and `items?.[0]`). -/
inductive SearchOutcome where
  | err (message : String)
  | ok (items : List JVal)

/-- The external world one `/api/experience` request interacts with.
`jsonParse` is the platform `JSON.parse` (`none` models a throw);
`search` maps a query string to its outcome. -/
structure ExpEnv where
  jsonParse : String → Option JVal
  groq : GroqOutcome
  token : TokenOutcome
  search : String → SearchOutcome

/-- The external world one `/api/playlist` request interacts with. -/
structure PlaylistEnv where
  token : TokenOutcome
  search : String → SearchOutcome

/-- Query parameters of an `/api/experience` request (each `none` when the
parameter is absent). -/
structure ExpQuery where
  mood : Option String
  ingredients : Option String
  longMode : Option String

/-- Query parameters of an `/api/playlist` request. -/
structure PlaylistQuery where
  mood : Option String

/-! ## The `/api/experience` handler -/

/-- The seven required top-level sections, in the exact order the handler
checks them. -/
def requiredSections : List String :=
  ["playlist", "recipe", "movie", "colorPalette", "meditation", "outfit", "writing"]

/-- Result of the section-presence loop over the parsed experience. -/
inductive ValidateResult where
  | typeError (msg : String)
  | missing (sec : String)
  | ok

/-- The handler's validation loop: `for (const section of requiredSections)
if (!experience[section]) throw new Error('Missing required section: ...')`.
Indexing `null` or `undefined` throws a `TypeError` at the first access. -/
def validateExperience (e : JVal) : ValidateResult :=
  match e with
  | .null => .typeError "Cannot read properties of null (reading \x27playlist\x27)"
  | .undefined => .typeError "Cannot read properties of undefined (reading \x27playlist\x27)"
  | _ =>
    match requiredSections.find? (fun s => !truthy (getProp e s)) with
    | some s => .missing s
    | none => .ok

/-- The `ingredients` query-parameter handling: an absent or empty (falsy)
parameter yields `[]` without parsing; otherwise the string must
`JSON.parse` to an array, anything else is a 400-class error. -/
def parseIngredientsParam (jsonParse : String → Option JVal) :
    Option String → Except Unit (List JVal)
  | none => .ok []
  | some s =>
    if s.isEmpty then .ok []
    else
      match jsonParse s with
      | some (.arr xs) => .ok xs
      | some _ => .error ()
      | none => .error ()

/-- The `catch` block of the `/api/experience` handler: 401 and 429 upstream
statuses pass through; a message containing `Groq` maps to the generation
500; everything else maps to the generic 500 carrying the message as
`details`.  Errors thrown inside the handler itself (parse, schema,
`TypeError`) have no attached response, so their `responseStatus` is
`none`. -/
def experienceCatch (responseStatus : Option Nat) (message : String) : Response :=
  if responseStatus == some 401 then
    ⟨401, .errorBody "Unauthorized - Please check your API credentials" none⟩
  else if responseStatus == some 429 then
    ⟨429, .errorBody "Rate limit exceeded - Please try again later" none⟩
  else if strContains message "Groq" then
    ⟨500, .errorBody "Failed to generate experience. Please try again later." none⟩
  else
    ⟨500, .errorBody "Failed to fetch experience. Please try again later." (some message)⟩

/-- The playlist merge on a found catalog item:
`experience.playlist = { ...experience.playlist, name: playlist.name,
description: playlist.description, url: playlist.external_urls.spotify,
images: playlist.images }`.  Reading `.spotify` off a `null`/`undefined`
`external_urls` throws, which the enrichment `catch` swallows. -/
def mergePlaylist (exp : JVal) (item : JVal) : Except String JVal :=
  match jsGet (getProp item "external_urls") "spotify" with
  | .error e => .error e
  | .ok url =>
    .ok (setField exp "playlist" (JVal.obj
      (setKey (setKey (setKey (setKey (spreadFields (getProp exp "playlist"))
        "name" (getProp item "name"))
        "description" (getProp item "description"))
        "url" url)
        "images" (getProp item "images"))))

/-- The enrichment step of `/api/experience`: acquire a token and run ONE
search for `` `${mood} playlist` `` (the raw, unnormalised mood); on a truthy
first item merge its fields into the playlist section; any failure in this
`try` block is swallowed and the unenriched experience is returned.  The
response is `200` in every branch. -/
def enrichPlaylistStep (env : ExpEnv) (mood : String) (exp : JVal)
    (calls : List Call) : Response × List Call :=
  match env.token with
  | .fail _ _ => (⟨200, .jsonBody exp⟩, calls ++ [Call.tokenCall])
  | .ok _ =>
    match env.search (mood ++ " playlist") with
    | .err _ =>
      (⟨200, .jsonBody exp⟩,
       calls ++ [Call.tokenCall, Call.searchCall (mood ++ " playlist")])
    | .ok items =>
      match items.head? with
      | none =>
        (⟨200, .jsonBody exp⟩,
         calls ++ [Call.tokenCall, Call.searchCall (mood ++ " playlist")])
      | some item =>
        if truthy item then
          match mergePlaylist exp item with
          | .error _ =>
            (⟨200, .jsonBody exp⟩,
             calls ++ [Call.tokenCall, Call.searchCall (mood ++ " playlist")])
          | .ok merged =>
            (⟨200, .jsonBody merged⟩,
             calls ++ [Call.tokenCall, Call.searchCall (mood ++ " playlist")])
        else
          (⟨200, .jsonBody exp⟩,
           calls ++ [Call.tokenCall, Call.searchCall (mood ++ " playlist")])

/-- Stage of `/api/experience` from the Groq call onward: generation, content check,
`JSON.parse`, section validation, then enrichment. -/
def experienceGenerate (env : ExpEnv) (mood : String) (ingredients : List JVal)
    (longMode : Bool) : Response × List Call :=
  match env.groq with
  | .fail st msg =>
    (experienceCatch st msg,
     [Call.groqCall (mkGroqExperienceRequest mood ingredients longMode)])
  | .okNoContent =>
    (experienceCatch none "Invalid response from Groq API",
     [Call.groqCall (mkGroqExperienceRequest mood ingredients longMode)])
  | .okContent content =>
    match env.jsonParse content with
    | none =>
      (experienceCatch none "Failed to parse AI response",
       [Call.groqCall (mkGroqExperienceRequest mood ingredients longMode)])
    | some exp =>
      match validateExperience exp with
      | .typeError m =>
        (experienceCatch none m,
         [Call.groqCall (mkGroqExperienceRequest mood ingredients longMode)])
      | .missing s =>
        (experienceCatch none ("Missing required section: " ++ s),
         [Call.groqCall (mkGroqExperienceRequest mood ingredients longMode)])
      | .ok =>
        enrichPlaylistStep env mood exp
          [Call.groqCall (mkGroqExperienceRequest mood ingredients longMode)]

/-- The full `/api/experience` handler: mood validation (`!mood` rejects only
a missing or empty-string mood), ingredients parsing, `longMode` flag
(engaged only by the exact string `true`), then generation. -/
def apiExperience (env : ExpEnv) (q : ExpQuery) : Response × List Call :=
  match q.mood with
  | none =>
    (⟨400, .errorBody "Mood is required and must be a string"
      (some "Please provide a valid mood parameter")⟩, [])
  | some mood =>
    if mood.isEmpty then
      (⟨400, .errorBody "Mood is required and must be a string"
        (some "Please provide a valid mood parameter")⟩, [])
    else
      match parseIngredientsParam env.jsonParse q.ingredients with
      | .error _ =>
        (⟨400, .errorBody "Invalid ingredients format"
          (some "Ingredients must be a valid JSON array")⟩, [])
      | .ok ingredients =>
        experienceGenerate env mood ingredients (q.longMode == some "true")

/-! ## The `/api/playlist` handler -/

/-- The fallback loop of `/api/playlist`: try each query in order; a query
that errors or returns an empty (or missing) item list is skipped; the first
query with a non-empty item list ends the loop with `items[0]`.  Also
returns the search calls issued. -/
def searchLoop (search : String → SearchOutcome) :
    List String → Option JVal × List Call
  | [] => (none, [])
  | query :: rest =>
    match search query with
    | .err _ =>
      ((searchLoop search rest).1, Call.searchCall query :: (searchLoop search rest).2)
    | .ok items =>
      match items.head? with
      | some item => (some item, [Call.searchCall query])
      | none =>
        ((searchLoop search rest).1, Call.searchCall query :: (searchLoop search rest).2)

/-- The `playlistData` object returned by `/api/playlist` on success,
wrapped as `{ playlist: {...} }`. -/
def playlistItemBody (item : JVal) : JVal :=
  JVal.obj [("playlist", JVal.obj
    [("id", getProp item "id"),
     ("name", getProp item "name"),
     ("description", getProp item "description"),
     ("external_urls", getProp item "external_urls"),
     ("images", getProp item "images"),
     ("owner", getProp item "owner")])]

/-- The 404 response of `/api/playlist`. -/
def playlistNotFound : Response :=
  ⟨404, .errorBody "No playlists found. Try a different mood or check back later." none⟩

/-- The `catch` block of `/api/playlist`: a caught error with an attached
401 response maps to 401, everything else to the generic 500.  The only
reachable throw site is the wrapped token failure, which carries no
response. -/
def playlistCatch (responseStatus : Option Nat) : Response :=
  if responseStatus == some 401 then
    ⟨401, .errorBody "Unauthorized - Please check your API credentials" none⟩
  else
    ⟨500, .errorBody "Failed to fetch playlist. Please try again later." none⟩

/-- The full `/api/playlist` handler.  Note that `getSpotifyToken` wraps any
token-endpoint failure in a plain `Error` with no attached response, so the
handler's 401 branch is unreachable and every token failure maps to 500. -/
def apiPlaylist (env : PlaylistEnv) (q : PlaylistQuery) : Response × List Call :=
  match q.mood with
  | none => (⟨400, .errorBody "Mood is required" none⟩, [])
  | some mood =>
    if mood.isEmpty then (⟨400, .errorBody "Mood is required" none⟩, [])
    else
      match env.token with
      | .fail _ _ => (playlistCatch none, [Call.tokenCall])
      | .ok _ =>
        match (searchLoop env.search (playlistQueries (formatMood mood))).1 with
        | some item =>
          if truthy item then
            (⟨200, .jsonBody (playlistItemBody item)⟩,
             Call.tokenCall :: (searchLoop env.search (playlistQueries (formatMood mood))).2)
          else
            (playlistNotFound,
             Call.tokenCall :: (searchLoop env.search (playlistQueries (formatMood mood))).2)
        | none =>
          (playlistNotFound,
           Call.tokenCall :: (searchLoop env.search (playlistQueries (formatMood mood))).2)

/-- Claim-side description of the fallback policy (C6): the first item of the
first query whose search returns a non-empty list, queries that error being
skipped. -/
def firstNonEmptyResult (search : String → SearchOutcome) : List String → Option JVal
  | [] => none
  | q :: rest =>
    match search q with
    | .ok (x :: _) => some x
    | _ => firstNonEmptyResult search rest


/-! ## Helper lemmas -/

theorem string_append_left_cancel {a b c : String} (h : a ++ b = a ++ c) : b = c := by
  have h2 := congrArg String.data h
  simp only [String.data_append] at h2
  exact String.ext (List.append_cancel_left h2)

theorem isEmpty_false_of_ne {s : String} (h : s ≠ "") : s.isEmpty = false := by
  rw [Bool.eq_false_iff]
  intro hh
  exact h ((String.isEmpty_iff s).mp hh)

theorem find?_setKey_self (fs : List (String × JVal)) (k : String) (v : JVal) :
    (setKey fs k v).find? (fun f => f.1 == k) = some (k, v) := by
  induction fs with
  | nil => simp [setKey, List.find?]
  | cons f fs ih =>
    by_cases h : (f.1 == k) = true
    · simp [setKey, h, List.find?]
    · have h2 : (f.1 == k) = false := by simpa using h
      simp only [setKey, h2, Bool.false_eq_true, if_false, List.find?_cons]
      exact ih

theorem find?_setKey_other (fs : List (String × JVal)) (k : String) (v : JVal)
    (k' : String) (h : (k == k') = false) :
    (setKey fs k v).find? (fun f => f.1 == k') = fs.find? (fun f => f.1 == k') := by
  induction fs with
  | nil => simp [setKey, List.find?, h]
  | cons f fs ih =>
    by_cases hf : (f.1 == k) = true
    · have hfk : f.1 = k := eq_of_beq hf
      have hf' : (f.1 == k') = false := by rw [hfk]; exact h
      simp [setKey, hf, List.find?, h, hf']
    · simp only [setKey, hf, Bool.false_eq_true, if_false]
      by_cases hk' : (f.1 == k') = true
      · simp [List.find?_cons, hk']
      · have hk2 : (f.1 == k') = false := by simpa using hk'
        simp only [List.find?_cons, hk2, Bool.false_eq_true, if_false]
        exact ih

theorem getProp_setKey_self (fs : List (String × JVal)) (k : String) (v : JVal) :
    getProp (.obj (setKey fs k v)) k = v := by
  simp [getProp, find?_setKey_self]

theorem getProp_setKey_other (fs : List (String × JVal)) (k : String) (v : JVal)
    (k' : String) (h : (k == k') = false) :
    getProp (.obj (setKey fs k v)) k' = getProp (.obj fs) k' := by
  simp [getProp, find?_setKey_other fs k v k' h]

theorem searchLoop_fst (search : String → SearchOutcome) (qs : List String) :
    (searchLoop search qs).1 = firstNonEmptyResult search qs := by
  induction qs with
  | nil => rfl
  | cons q rest ih =>
    unfold searchLoop firstNonEmptyResult
    cases hs : search q with
    | err m => simpa using ih
    | ok items => cases items with
      | nil => simpa using ih
      | cons x xs => rfl

theorem searchLoop_calls_search (search : String → SearchOutcome) (qs : List String) :
    ∀ c ∈ (searchLoop search qs).2, ∃ q, c = Call.searchCall q := by
  induction qs with
  | nil => intro c hc; simp [searchLoop] at hc
  | cons q rest ih =>
    intro c hc
    unfold searchLoop at hc
    cases hs : search q with
    | err m =>
      rw [hs] at hc
      simp only [List.mem_cons] at hc
      rcases hc with h | h
      · exact ⟨q, h⟩
      · exact ih c h
    | ok items =>
      rw [hs] at hc
      cases items with
      | nil =>
        simp only [List.head?, List.mem_cons] at hc
        rcases hc with h | h
        · exact ⟨q, h⟩
        · exact ih c h
      | cons x xs =>
        simp only [List.head?, List.mem_singleton] at hc
        exact ⟨q, hc⟩

theorem firstNonEmptyResult_some {search : String → SearchOutcome} {qs : List String}
    {item : JVal} (h : firstNonEmptyResult search qs = some item) :
    ∃ q rest, search q = .ok (item :: rest) := by
  induction qs with
  | nil => simp [firstNonEmptyResult] at h
  | cons q rest ih =>
    unfold firstNonEmptyResult at h
    cases hs : search q with
    | err m => rw [hs] at h; exact ih h
    | ok items =>
      rw [hs] at h
      cases items with
      | nil => exact ih h
      | cons x xs =>
        simp only [Option.some_inj] at h
        exact ⟨q, xs, by rw [hs, h]⟩

theorem enrichPlaylistStep_200 (env : ExpEnv) (mood : String) (exp : JVal)
    (calls : List Call) :
    ∃ v, (enrichPlaylistStep env mood exp calls).1 = ⟨200, .jsonBody v⟩ := by
  unfold enrichPlaylistStep
  cases env.token with
  | fail st msg => exact ⟨exp, rfl⟩
  | ok tk =>
    cases env.search (mood ++ " playlist") with
    | err m => exact ⟨exp, rfl⟩
    | ok items =>
      cases items with
      | nil => exact ⟨exp, rfl⟩
      | cons x xs =>
        simp only [List.head?]
        by_cases ht : truthy x
        · simp only [ht, if_true]
          cases mergePlaylist exp x with
          | error e => exact ⟨exp, rfl⟩
          | ok merged => exact ⟨merged, rfl⟩
        · simp only [ht, if_false]
          exact ⟨exp, rfl⟩

theorem enrichPlaylistStep_calls (env : ExpEnv) (mood : String) (exp : JVal)
    (calls : List Call) :
    ∃ ext, (enrichPlaylistStep env mood exp calls).2 = calls ++ ext := by
  unfold enrichPlaylistStep
  cases env.token with
  | fail st msg => exact ⟨[Call.tokenCall], rfl⟩
  | ok tk =>
    cases env.search (mood ++ " playlist") with
    | err m => exact ⟨[Call.tokenCall, Call.searchCall (mood ++ " playlist")], rfl⟩
    | ok items =>
      cases items with
      | nil => exact ⟨[Call.tokenCall, Call.searchCall (mood ++ " playlist")], rfl⟩
      | cons x xs =>
        simp only [List.head?]
        by_cases ht : truthy x
        · simp only [ht, if_true]
          cases mergePlaylist exp x with
          | error e => exact ⟨[Call.tokenCall, Call.searchCall (mood ++ " playlist")], rfl⟩
          | ok merged => exact ⟨[Call.tokenCall, Call.searchCall (mood ++ " playlist")], rfl⟩
        · simp only [ht, if_false]
          exact ⟨[Call.tokenCall, Call.searchCall (mood ++ " playlist")], rfl⟩

theorem experienceCatch_status (st : Option Nat) (msg : String) :
    (experienceCatch st msg).status = 401 ∨ (experienceCatch st msg).status = 429 ∨
    (experienceCatch st msg).status = 500 := by
  unfold experienceCatch
  split
  · left; rfl
  · split
    · right; left; rfl
    · split
      · right; right; rfl
      · right; right; rfl

theorem apiExperience_valid (env : ExpEnv) (mood : String) (ingP lmP : Option String)
    (ingredients : List JVal) (hm : mood ≠ "")
    (hing : parseIngredientsParam env.jsonParse ingP = .ok ingredients) :
    apiExperience env ⟨some mood, ingP, lmP⟩ =
      experienceGenerate env mood ingredients (lmP == some "true") := by
  unfold apiExperience
  simp only [isEmpty_false_of_ne hm, Bool.false_eq_true, if_false, hing]


/-! ## Further handler-level lemmas -/

theorem experienceGenerate_calls (env : ExpEnv) (mood : String) (ing : List JVal)
    (lm : Bool) :
    ∃ rest, (experienceGenerate env mood ing lm).2 =
      Call.groqCall (mkGroqExperienceRequest mood ing lm) :: rest := by
  cases hg : env.groq with
  | fail st msg => exact ⟨[], by simp [experienceGenerate, hg]⟩
  | okNoContent => exact ⟨[], by simp [experienceGenerate, hg]⟩
  | okContent content =>
    cases hp : env.jsonParse content with
    | none => exact ⟨[], by simp [experienceGenerate, hg, hp]⟩
    | some exp =>
      cases hv : validateExperience exp with
      | typeError m => exact ⟨[], by simp [experienceGenerate, hg, hp, hv]⟩
      | missing s2 => exact ⟨[], by simp [experienceGenerate, hg, hp, hv]⟩
      | ok =>
        obtain ⟨ext, hext⟩ := enrichPlaylistStep_calls env mood exp
          [Call.groqCall (mkGroqExperienceRequest mood ing lm)]
        refine ⟨ext, ?_⟩
        simp only [experienceGenerate, hg, hp, hv]
        simpa using hext

theorem experienceGenerate_status_ne_400 (env : ExpEnv) (mood : String)
    (ing : List JVal) (lm : Bool) :
    (experienceGenerate env mood ing lm).1.status ≠ 400 := by
  have catch_ne : ∀ st msg, (experienceCatch st msg).status ≠ 400 := by
    intro st msg
    rcases experienceCatch_status st msg with h | h | h <;> rw [h] <;> decide
  cases hg : env.groq with
  | fail st msg => simp only [experienceGenerate, hg]; exact catch_ne st msg
  | okNoContent => simp only [experienceGenerate, hg]; exact catch_ne _ _
  | okContent content =>
    cases hp : env.jsonParse content with
    | none => simp only [experienceGenerate, hg, hp]; exact catch_ne _ _
    | some exp =>
      cases hv : validateExperience exp with
      | typeError m => simp only [experienceGenerate, hg, hp, hv]; exact catch_ne _ _
      | missing s2 => simp only [experienceGenerate, hg, hp, hv]; exact catch_ne _ _
      | ok =>
        simp only [experienceGenerate, hg, hp, hv]
        obtain ⟨v, hv2⟩ := enrichPlaylistStep_200 env mood exp
          [Call.groqCall (mkGroqExperienceRequest mood ing lm)]
        rw [hv2]
        simp

/-! ## Claim C9 -/

/-- C9: for any fixed mood (and ingredient list), the Groq requests built in
long mode and in short mode have token budgets 3000 and 2000 respectively
(strictly larger in long mode) and differently-worded system prompts. -/
theorem groq_request_mode_difference (mood : String) (ingredients : List JVal) :
    (mkGroqExperienceRequest mood ingredients true).maxTokens = 3000 ∧
    (mkGroqExperienceRequest mood ingredients false).maxTokens = 2000 ∧
    (mkGroqExperienceRequest mood ingredients false).maxTokens <
      (mkGroqExperienceRequest mood ingredients true).maxTokens ∧
    (mkGroqExperienceRequest mood ingredients true).systemContent ≠
      (mkGroqExperienceRequest mood ingredients false).systemContent := by
  refine ⟨rfl, rfl, by norm_num [mkGroqExperienceRequest], ?_⟩
  intro h
  have h2 : experiencePromptHead ++ experienceLongModeText =
      experiencePromptHead ++ experienceShortModeText := h
  have h3 : experienceLongModeText = experienceShortModeText :=
    string_append_left_cancel h2
  exact absurd h3 (by decide)

/-! ## Claim C10 -/

/-- C10: for every `/api/experience` request that passes mood and ingredient
validation, the Groq request is built with long mode engaged exactly when the
`longMode` parameter is the literal string `true` (token budget 3000, else
2000); no value of the parameter is ever rejected with a 400. -/
theorem longMode_flag_exact (env : ExpEnv) (mood : String) (ingP lmP : Option String)
    (ingredients : List JVal) (hm : mood ≠ "")
    (hing : parseIngredientsParam env.jsonParse ingP = .ok ingredients) :
    (∃ rest, (apiExperience env ⟨some mood, ingP, lmP⟩).2 =
        Call.groqCall (mkGroqExperienceRequest mood ingredients (lmP == some "true"))
          :: rest) ∧
    ((lmP == some "true") = true ↔ lmP = some "true") ∧
    (mkGroqExperienceRequest mood ingredients (lmP == some "true")).maxTokens =
      (if lmP = some "true" then 3000 else 2000) ∧
    (apiExperience env ⟨some mood, ingP, lmP⟩).1.status ≠ 400 := by
  rw [apiExperience_valid env mood ingP lmP ingredients hm hing]
  refine ⟨experienceGenerate_calls env mood ingredients _, beq_iff_eq, ?_,
    experienceGenerate_status_ne_400 env mood ingredients _⟩
  by_cases h : lmP = some "true"
  · simp [mkGroqExperienceRequest, h]
  · simp [mkGroqExperienceRequest, h]

/-- Witness for C10 at a concrete input: the value `True` (wrong case) selects
short mode (2000 tokens) and is not rejected. -/
theorem longMode_flag_exact_witness :
    (mkGroqExperienceRequest "calm" [] ((some "True" : Option String) == some "true")).maxTokens
      = 2000 ∧
    (apiExperience ⟨fun _ => none, .fail none "boom", .fail none "t", fun _ => .err "s"⟩
        ⟨some "calm", none, some "True"⟩).1.status ≠ 400 := by
  have h := longMode_flag_exact
    ⟨fun _ => none, .fail none "boom", .fail none "t", fun _ => .err "s"⟩
    "calm" none (some "True") [] (by decide) rfl
  exact ⟨by simpa using h.2.2.1, h.2.2.2⟩

/-! ## Claim C3 -/

/-- C3 counterexample: for the whitespace-only mood `" "` the endpoint does
NOT return 400 — it proceeds (here the Groq call fails, giving 500) and it
issues an outbound call. -/
theorem whitespace_mood_not_rejected :
    (" " : String).data.all isJsSpace = true ∧
    (apiExperience ⟨fun _ => none, .fail none "boom", .fail none "t", fun _ => .err "s"⟩
        ⟨some " ", none, none⟩).1.status = 500 ∧
    (apiExperience ⟨fun _ => none, .fail none "boom", .fail none "t", fun _ => .err "s"⟩
        ⟨some " ", none, none⟩).2.length = 1 :=
  ⟨by decide, rfl, rfl⟩

/-- C3 amended: only a missing or empty-string mood is rejected with 400 (and
then no outbound call is issued); a whitespace-only mood passes validation. -/
theorem empty_mood_400_no_calls (env : ExpEnv) (ingP lmP moodP : Option String)
    (h : moodP = none ∨ moodP = some "") :
    apiExperience env ⟨moodP, ingP, lmP⟩ =
      (⟨400, .errorBody "Mood is required and must be a string"
        (some "Please provide a valid mood parameter")⟩, []) := by
  rcases h with h | h <;> subst h <;> rfl

/-- Witness for the amended C3 at a concrete input. -/
theorem empty_mood_400_no_calls_witness :
    apiExperience ⟨fun _ => none, .fail none "boom", .fail none "t", fun _ => .err "s"⟩
        ⟨none, none, none⟩ =
      (⟨400, .errorBody "Mood is required and must be a string"
        (some "Please provide a valid mood parameter")⟩, []) :=
  empty_mood_400_no_calls _ none none none (Or.inl rfl)

/-! ## Claim C7 -/

/-- C7 counterexample: the empty string is present and is not parseable JSON
(the environment's parse returns `none` on every string, in particular on
`""`), yet the endpoint does not return 400: the falsiness check
`if (req.query.ingredients)` skips parsing entirely, the request proceeds
(500 here from the failing Groq call) and an outbound call is issued. -/
theorem empty_ingredients_param_not_rejected :
    ((fun _ => (none : Option JVal)) : String → Option JVal) "" = none ∧
    (apiExperience ⟨fun _ => none, .fail none "boom", .fail none "t", fun _ => .err "s"⟩
        ⟨some "happy", some "", none⟩).1.status = 500 ∧
    (apiExperience ⟨fun _ => none, .fail none "boom", .fail none "t", fun _ => .err "s"⟩
        ⟨some "happy", some "", none⟩).2.length = 1 :=
  ⟨rfl, rfl, rfl⟩

/-- C7 amended: a present, NON-EMPTY `ingredients` parameter that does not
parse as a JSON array yields 400 with the ingredients-specific message and no
outbound call; an absent or empty-string parameter yields the empty
ingredient list. -/
theorem invalid_ingredients_400 (env : ExpEnv) (mood s : String) (lmP : Option String)
    (hm : mood ≠ "") (hs : s ≠ "")
    (hbad : env.jsonParse s = none ∨
      ∃ v, env.jsonParse s = some v ∧ ∀ xs, v ≠ .arr xs) :
    apiExperience env ⟨some mood, some s, lmP⟩ =
      (⟨400, .errorBody "Invalid ingredients format"
        (some "Ingredients must be a valid JSON array")⟩, []) ∧
    parseIngredientsParam env.jsonParse none = .ok [] ∧
    parseIngredientsParam env.jsonParse (some "") = .ok [] := by
  have hparse : parseIngredientsParam env.jsonParse (some s) = .error () := by
    simp only [parseIngredientsParam, isEmpty_false_of_ne hs, Bool.false_eq_true, if_false]
    rcases hbad with h | ⟨v, hv, hna⟩
    · rw [h]
    · rw [hv]
      cases v with
      | arr xs => exact absurd rfl (hna xs)
      | null => rfl
      | bool b => rfl
      | num n => rfl
      | str s2 => rfl
      | obj fs => rfl
      | undefined => rfl
  refine ⟨?_, rfl, rfl⟩
  unfold apiExperience
  simp only [isEmpty_false_of_ne hm, Bool.false_eq_true, if_false, hparse]

/-- Witness for the amended C7 at a concrete input (`ingredients = "abc"`,
unparseable). -/
theorem invalid_ingredients_400_witness :
    apiExperience ⟨fun _ => none, .fail none "boom", .fail none "t", fun _ => .err "s"⟩
        ⟨some "happy", some "abc", none⟩ =
      (⟨400, .errorBody "Invalid ingredients format"
        (some "Ingredients must be a valid JSON array")⟩, []) :=
  (invalid_ingredients_400 ⟨fun _ => none, .fail none "boom", .fail none "t", fun _ => .err "s"⟩
    "happy" "abc" none (by decide) (by decide) (Or.inl rfl)).1


/-! ## Claims C2 and C5: the enrichment step -/

theorem beq_false_symm {a b : String} (h : (a == b) = false) : (b == a) = false := by
  rw [beq_eq_false_iff_ne] at h ⊢
  exact h.symm

theorem getProp_obj_shape {e : JVal} {k : String} {pfs : List (String × JVal)}
    (h : getProp e k = .obj pfs) : ∃ efs, e = .obj efs := by
  cases e with
  | obj fs => exact ⟨fs, rfl⟩
  | str s =>
    exfalso
    have hrw : getProp (.str s) k =
        (((strIndexFields s).find? (fun f => f.1 == k)).map Prod.snd).getD .undefined := rfl
    rw [hrw] at h
    cases hf : (strIndexFields s).find? (fun f => f.1 == k) with
    | none => rw [hf] at h; exact JVal.noConfusion h
    | some f =>
      rw [hf] at h
      simp only [Option.map_some', Option.getD_some] at h
      have hmem := List.mem_of_find?_eq_some hf
      unfold strIndexFields at hmem
      obtain ⟨p, hp2, hpe⟩ := List.mem_map.mp hmem
      have hf2 : f.2 = JVal.str (String.singleton p.2) := by rw [← hpe]
      rw [hf2] at h
      exact JVal.noConfusion h
  | null => exact absurd h (by intro hh; exact JVal.noConfusion hh)
  | bool b => exact absurd h (by intro hh; exact JVal.noConfusion hh)
  | num n => exact absurd h (by intro hh; exact JVal.noConfusion hh)
  | arr xs => exact absurd h (by intro hh; exact JVal.noConfusion hh)
  | undefined => exact absurd h (by intro hh; exact JVal.noConfusion hh)

/-- C2: for a validated experience, any enrichment failure — token acquisition
failure, search error, or no catalog match — never fails the request: the
response is 200 with the model-generated experience (and so its playlist
section) unchanged. -/
theorem enrichment_failure_swallowed (env : ExpEnv) (mood : String)
    (ingP lmP : Option String) (ingredients : List JVal) (content : String) (e : JVal)
    (hm : mood ≠ "")
    (hing : parseIngredientsParam env.jsonParse ingP = .ok ingredients)
    (hg : env.groq = .okContent content)
    (hp : env.jsonParse content = some e)
    (hv : validateExperience e = .ok)
    (hfail : (∃ st msg, env.token = .fail st msg) ∨
      (∃ tk, env.token = .ok tk ∧
        ((∃ msg, env.search (mood ++ " playlist") = .err msg) ∨
          env.search (mood ++ " playlist") = .ok []))) :
    (apiExperience env ⟨some mood, ingP, lmP⟩).1 = ⟨200, .jsonBody e⟩ := by
  rw [apiExperience_valid env mood ingP lmP ingredients hm hing]
  simp only [experienceGenerate, hg, hp, hv]
  rcases hfail with ⟨st, msg, htok⟩ | ⟨tk, htok, hsearch⟩
  · simp [enrichPlaylistStep, htok]
  · rcases hsearch with ⟨msg, hsr⟩ | hsr
    · simp [enrichPlaylistStep, htok, hsr]
    · simp [enrichPlaylistStep, htok, hsr]

/-- Witness for C2 at a concrete input: the token call fails, the response is
still 200 with the generated experience unchanged. -/
theorem enrichment_failure_swallowed_witness :
    (apiExperience
      ⟨fun s => if s == "X" then some (JVal.obj [("playlist", .obj [("name", .str "P")]),
          ("recipe", .str "r"), ("movie", .str "m"), ("colorPalette", .str "c"),
          ("meditation", .str "d"), ("outfit", .str "o"), ("writing", .str "w")]) else none,
        .okContent "X", .fail none "t", fun _ => .err "s"⟩
      ⟨some "happy", none, none⟩).1 =
    ⟨200, .jsonBody (JVal.obj [("playlist", .obj [("name", .str "P")]),
      ("recipe", .str "r"), ("movie", .str "m"), ("colorPalette", .str "c"),
      ("meditation", .str "d"), ("outfit", .str "o"), ("writing", .str "w")])⟩ :=
  enrichment_failure_swallowed _ "happy" none none [] "X" _ (by decide) rfl rfl rfl rfl
    (Or.inl ⟨none, "t", rfl⟩)

/-- C5: when the enrichment search returns a (truthy) catalog match, the
response's playlist section has `name`, `description`, `url` and `images`
taken from the match (`url` from `external_urls.spotify`), every other field
of the playlist section (e.g. `genre`, `theme`) keeps its model-generated
value, and every other section of the experience is unchanged. -/
theorem enrichment_merge_fields (env : ExpEnv) (mood : String)
    (ingP lmP : Option String) (ingredients : List JVal) (content : String)
    (e item : JVal) (rest : List JVal) (pfs urls : List (String × JVal)) (tk : String)
    (hm : mood ≠ "")
    (hing : parseIngredientsParam env.jsonParse ingP = .ok ingredients)
    (hg : env.groq = .okContent content)
    (hp : env.jsonParse content = some e)
    (hv : validateExperience e = .ok)
    (htok : env.token = .ok tk)
    (hs : env.search (mood ++ " playlist") = .ok (item :: rest))
    (hti : truthy item = true)
    (hpl : getProp e "playlist" = .obj pfs)
    (hurl : getProp item "external_urls" = .obj urls) :
    ∃ e2, (apiExperience env ⟨some mood, ingP, lmP⟩).1 = ⟨200, .jsonBody e2⟩ ∧
      getProp (getProp e2 "playlist") "name" = getProp item "name" ∧
      getProp (getProp e2 "playlist") "description" = getProp item "description" ∧
      getProp (getProp e2 "playlist") "url" = getProp (JVal.obj urls) "spotify" ∧
      getProp (getProp e2 "playlist") "images" = getProp item "images" ∧
      (∀ k, (k == "name") = false → (k == "description") = false →
        (k == "url") = false → (k == "images") = false →
        getProp (getProp e2 "playlist") k = getProp (.obj pfs) k) ∧
      (∀ k, (k == "playlist") = false → getProp e2 k = getProp e k) := by
  obtain ⟨efs, hee⟩ := getProp_obj_shape hpl
  subst hee
  have hmp : mergePlaylist (JVal.obj efs) item = .ok (JVal.obj (setKey efs "playlist"
      (JVal.obj (setKey (setKey (setKey (setKey pfs
        "name" (getProp item "name"))
        "description" (getProp item "description"))
        "url" (getProp (JVal.obj urls) "spotify"))
        "images" (getProp item "images"))))) := by
    unfold mergePlaylist
    rw [hurl]
    simp only [jsGet]
    rw [hpl]
    simp only [spreadFields, setField]
  have hresp : (apiExperience env ⟨some mood, ingP, lmP⟩).1 =
      ⟨200, .jsonBody (JVal.obj (setKey efs "playlist"
        (JVal.obj (setKey (setKey (setKey (setKey pfs
          "name" (getProp item "name"))
          "description" (getProp item "description"))
          "url" (getProp (JVal.obj urls) "spotify"))
          "images" (getProp item "images")))))⟩ := by
    rw [apiExperience_valid env mood ingP lmP ingredients hm hing]
    simp only [experienceGenerate, hg, hp, hv]
    simp only [enrichPlaylistStep, htok, hs, List.head?_cons, hti, if_true, hmp]
  refine ⟨_, hresp, ?_, ?_, ?_, ?_, ?_, ?_⟩
  · rw [getProp_setKey_self]
    rw [getProp_setKey_other _ _ _ _ (by decide)]
    rw [getProp_setKey_other _ _ _ _ (by decide)]
    rw [getProp_setKey_other _ _ _ _ (by decide)]
    exact getProp_setKey_self _ _ _
  · rw [getProp_setKey_self]
    rw [getProp_setKey_other _ _ _ _ (by decide)]
    rw [getProp_setKey_other _ _ _ _ (by decide)]
    exact getProp_setKey_self _ _ _
  · rw [getProp_setKey_self]
    rw [getProp_setKey_other _ _ _ _ (by decide)]
    exact getProp_setKey_self _ _ _
  · rw [getProp_setKey_self]
    exact getProp_setKey_self _ _ _
  · intro k hk1 hk2 hk3 hk4
    rw [getProp_setKey_self]
    rw [getProp_setKey_other _ _ _ _ (beq_false_symm hk4)]
    rw [getProp_setKey_other _ _ _ _ (beq_false_symm hk3)]
    rw [getProp_setKey_other _ _ _ _ (beq_false_symm hk2)]
    exact getProp_setKey_other _ _ _ _ (beq_false_symm hk1)
  · intro k hk
    exact getProp_setKey_other _ _ _ _ (beq_false_symm hk)

/-- Witness for C5 at a concrete input: the catalog match overrides
name/description/url/images while genre and the recipe section survive. -/
theorem enrichment_merge_fields_witness :
    ∃ e2, (apiExperience
      ⟨fun s => if s == "X" then some (JVal.obj
          [("playlist", .obj [("name", .str "GN"), ("genre", .str "GG")]),
           ("recipe", .str "r"), ("movie", .str "m"), ("colorPalette", .str "c"),
           ("meditation", .str "d"), ("outfit", .str "o"), ("writing", .str "w")]) else none,
        .okContent "X", .ok "tk",
        fun q => if q == "happy playlist" then .ok [JVal.obj
          [("name", .str "CN"), ("description", .str "CD"),
           ("external_urls", .obj [("spotify", .str "CU")]), ("images", .arr [])]]
          else .err "s"⟩
      ⟨some "happy", none, none⟩).1 = ⟨200, .jsonBody e2⟩ ∧
      getProp (getProp e2 "playlist") "name" =
        getProp (JVal.obj [("name", .str "CN"), ("description", .str "CD"),
          ("external_urls", .obj [("spotify", .str "CU")]), ("images", .arr [])]) "name" ∧
      getProp (getProp e2 "playlist") "description" =
        getProp (JVal.obj [("name", .str "CN"), ("description", .str "CD"),
          ("external_urls", .obj [("spotify", .str "CU")]), ("images", .arr [])]) "description" ∧
      getProp (getProp e2 "playlist") "url" =
        getProp (JVal.obj [("spotify", .str "CU")]) "spotify" ∧
      getProp (getProp e2 "playlist") "images" =
        getProp (JVal.obj [("name", .str "CN"), ("description", .str "CD"),
          ("external_urls", .obj [("spotify", .str "CU")]), ("images", .arr [])]) "images" ∧
      (∀ k, (k == "name") = false → (k == "description") = false →
        (k == "url") = false → (k == "images") = false →
        getProp (getProp e2 "playlist") k =
          getProp (.obj [("name", .str "GN"), ("genre", .str "GG")]) k) ∧
      (∀ k, (k == "playlist") = false → getProp e2 k =
        getProp (JVal.obj
          [("playlist", .obj [("name", .str "GN"), ("genre", .str "GG")]),
           ("recipe", .str "r"), ("movie", .str "m"), ("colorPalette", .str "c"),
           ("meditation", .str "d"), ("outfit", .str "o"), ("writing", .str "w")]) k) :=
  enrichment_merge_fields _ "happy" none none [] "X" _ _ [] _ _ "tk"
    (by decide) rfl rfl rfl rfl rfl rfl rfl rfl rfl


/-! ## Claims C6 and C4: the `/api/playlist` route -/

theorem apiPlaylist_match (env : PlaylistEnv) (mood tk : String) (item : JVal)
    (hm : mood ≠ "") (htok : env.token = .ok tk)
    (hfi : firstNonEmptyResult env.search (playlistQueries (formatMood mood)) = some item)
    (hti : truthy item = true) :
    (apiPlaylist env ⟨some mood⟩).1 = ⟨200, .jsonBody (playlistItemBody item)⟩ := by
  have hl : (searchLoop env.search (playlistQueries (formatMood mood))).1 = some item := by
    rw [searchLoop_fst]; exact hfi
  unfold apiPlaylist
  simp only [isEmpty_false_of_ne hm, Bool.false_eq_true, if_false, htok, hl, hti, if_true]

theorem apiPlaylist_nomatch (env : PlaylistEnv) (mood tk : String)
    (hm : mood ≠ "") (htok : env.token = .ok tk)
    (hfi : firstNonEmptyResult env.search (playlistQueries (formatMood mood)) = none) :
    (apiPlaylist env ⟨some mood⟩).1 = playlistNotFound := by
  have hl : (searchLoop env.search (playlistQueries (formatMood mood))).1 = none := by
    rw [searchLoop_fst]; exact hfi
  unfold apiPlaylist
  simp only [isEmpty_false_of_ne hm, Bool.false_eq_true, if_false, htok, hl]

/-- C6: the `/api/playlist` search issues exactly the four fallback queries
over the normalised mood in the fixed order; the result is the first item of
the first query returning a non-empty list (an erroring query is skipped, as
captured by `firstNonEmptyResult`); when no query yields a match the route
returns 404.  The hypothesis `htr` states the environment returns real
(truthy) playlist objects. -/
theorem playlist_fallback_policy (env : PlaylistEnv) (mood tk : String)
    (hm : mood ≠ "") (htok : env.token = .ok tk)
    (htr : ∀ q x xs, env.search q = .ok (x :: xs) → truthy x = true) :
    playlistQueries (formatMood mood) =
      [formatMood mood ++ " playlist",
       formatMood mood ++ " vibe playlist",
       formatMood mood ++ " " ++ formatMood mood ++ " playlist",
       formatMood mood ++ " feel playlist"] ∧
    (∀ item, firstNonEmptyResult env.search (playlistQueries (formatMood mood)) = some item →
      (apiPlaylist env ⟨some mood⟩).1 = ⟨200, .jsonBody (playlistItemBody item)⟩) ∧
    (firstNonEmptyResult env.search (playlistQueries (formatMood mood)) = none →
      (apiPlaylist env ⟨some mood⟩).1 = playlistNotFound ∧ playlistNotFound.status = 404) := by
  refine ⟨rfl, ?_, ?_⟩
  · intro item hfi
    obtain ⟨q, rest2, hq⟩ := firstNonEmptyResult_some hfi
    exact apiPlaylist_match env mood tk item hm htok hfi (htr q item rest2 hq)
  · intro hfi
    exact ⟨apiPlaylist_nomatch env mood tk hm htok hfi, rfl⟩

/-- Witness for C6 at a concrete input: mood `Calm!` normalises to `calm`,
the first query errors and is skipped, the second query matches. -/
theorem playlist_fallback_policy_witness :
    (apiPlaylist
      ⟨.ok "tk", fun q => if q == "calm vibe playlist"
        then .ok [JVal.obj [("name", .str "N")]] else .err "e"⟩
      ⟨some "Calm!"⟩).1 =
      ⟨200, .jsonBody (playlistItemBody (JVal.obj [("name", .str "N")]))⟩ :=
  (playlist_fallback_policy
    ⟨.ok "tk", fun q => if q == "calm vibe playlist"
      then .ok [JVal.obj [("name", .str "N")]] else .err "e"⟩
    "Calm!" "tk" (by decide) rfl
    (by
      intro q x xs h
      by_cases hq : (q == "calm vibe playlist") = true
      · simp only [hq, if_true, SearchOutcome.ok.injEq] at h
        rw [← (List.cons.injEq _ _ _ _).mp h |>.1]
        rfl
      · simp [hq] at h)).2.1
    (JVal.obj [("name", .str "N")]) rfl

/-- C4 counterexample: on a successful match `/api/playlist` responds 200
with the NESTED body `{playlist: {id, name, description, external_urls,
images, owner}}` — not the flat `{name, description, url, moodDescription}`
object the claim describes — and issues no completion-provider call (the
mood-description code is unreachable). -/
theorem playlist_route_nested_body :
    apiPlaylist ⟨.ok "tk", fun q => if q == "calm playlist" then .ok [JVal.obj
        [("id", .str "I"), ("name", .str "N"), ("description", .str "D"),
         ("external_urls", .obj [("spotify", .str "U")]), ("images", .arr []),
         ("owner", .str "O")]] else .err "e"⟩ ⟨some "calm"⟩ =
    (⟨200, .jsonBody (JVal.obj [("playlist", JVal.obj
        [("id", .str "I"), ("name", .str "N"), ("description", .str "D"),
         ("external_urls", .obj [("spotify", .str "U")]), ("images", .arr []),
         ("owner", .str "O")])])⟩,
     [Call.tokenCall, Call.searchCall "calm playlist"]) ∧
    getProp (JVal.obj [("playlist", JVal.obj
        [("id", .str "I"), ("name", .str "N"), ("description", .str "D"),
         ("external_urls", .obj [("spotify", .str "U")]), ("images", .arr []),
         ("owner", .str "O")])]) "moodDescription" = .undefined ∧
    getProp (JVal.obj [("playlist", JVal.obj
        [("id", .str "I"), ("name", .str "N"), ("description", .str "D"),
         ("external_urls", .obj [("spotify", .str "U")]), ("images", .arr []),
         ("owner", .str "O")])]) "name" = .undefined :=
  ⟨rfl, rfl, rfl⟩

/-- C4 amended: when some fallback query yields a (truthy) match, the route
returns 200 with body `{playlist: {id, name, description, external_urls,
images, owner}}` taken from the match; the flat shape and the
mood-description generation are unreachable dead code, so no
completion-provider call is ever issued; with no match the route returns
404. -/
theorem playlist_route_contract (env : PlaylistEnv) (mood tk : String)
    (hm : mood ≠ "") (htok : env.token = .ok tk) :
    (∀ item, firstNonEmptyResult env.search (playlistQueries (formatMood mood)) = some item →
      truthy item = true →
      (apiPlaylist env ⟨some mood⟩).1 = ⟨200, .jsonBody (JVal.obj [("playlist", JVal.obj
        [("id", getProp item "id"), ("name", getProp item "name"),
         ("description", getProp item "description"),
         ("external_urls", getProp item "external_urls"),
         ("images", getProp item "images"), ("owner", getProp item "owner")])])⟩) ∧
    (firstNonEmptyResult env.search (playlistQueries (formatMood mood)) = none →
      (apiPlaylist env ⟨some mood⟩).1.status = 404) ∧
    (∀ req, Call.groqCall req ∉ (apiPlaylist env ⟨some mood⟩).2) := by
  refine ⟨?_, ?_, ?_⟩
  · intro item hfi hti
    exact apiPlaylist_match env mood tk item hm htok hfi hti
  · intro hfi
    rw [apiPlaylist_nomatch env mood tk hm htok hfi]
    rfl
  · intro req hmem
    have hcalls : (apiPlaylist env ⟨some mood⟩).2 =
        Call.tokenCall :: (searchLoop env.search (playlistQueries (formatMood mood))).2 := by
      unfold apiPlaylist
      simp only [isEmpty_false_of_ne hm, Bool.false_eq_true, if_false, htok]
      cases (searchLoop env.search (playlistQueries (formatMood mood))).1 with
      | none => rfl
      | some item =>
        by_cases hti : truthy item = true
        · simp only [hti, if_true]
        · simp [hti]
    rw [hcalls] at hmem
    rcases List.mem_cons.mp hmem with h | h
    · exact Call.noConfusion h
    · obtain ⟨q2, hq2⟩ := searchLoop_calls_search env.search _ _ h
      exact Call.noConfusion hq2

/-- Witness for the amended C4 at a concrete input. -/
theorem playlist_route_contract_witness :
    (apiPlaylist ⟨.ok "tk", fun _ => .ok []⟩ ⟨some "sad"⟩).1.status = 404 :=
  (playlist_route_contract ⟨.ok "tk", fun _ => .ok []⟩ "sad" "tk"
    (by decide) rfl).2.1 rfl


/-! ## Claim C1: failure modes of the content-generation stage -/

theorem experienceGenerate_parse_fail (env : ExpEnv) (mood : String)
    (ing : List JVal) (lm : Bool) (content : String)
    (hg : env.groq = .okContent content) (hp : env.jsonParse content = none) :
    (experienceGenerate env mood ing lm).1 =
      ⟨500, .errorBody "Failed to fetch experience. Please try again later."
        (some "Failed to parse AI response")⟩ := by
  simp only [experienceGenerate, hg, hp]
  rfl

theorem experienceGenerate_typeError (env : ExpEnv) (mood : String)
    (ing : List JVal) (lm : Bool) (content : String) (e : JVal) (m : String)
    (hg : env.groq = .okContent content) (hp : env.jsonParse content = some e)
    (hv : validateExperience e = .typeError m) :
    (experienceGenerate env mood ing lm).1 = experienceCatch none m := by
  simp only [experienceGenerate, hg, hp, hv]

theorem experienceGenerate_missing (env : ExpEnv) (mood : String)
    (ing : List JVal) (lm : Bool) (content : String) (e : JVal) (k : String)
    (hg : env.groq = .okContent content) (hp : env.jsonParse content = some e)
    (hv : validateExperience e = .missing k) :
    (experienceGenerate env mood ing lm).1 =
      experienceCatch none ("Missing required section: " ++ k) := by
  simp only [experienceGenerate, hg, hp, hv]

theorem validate_not_null_not_undef (e : JVal) (h1 : e ≠ .null) (h2 : e ≠ .undefined) :
    validateExperience e =
      (match requiredSections.find? (fun k => !truthy (getProp e k)) with
       | some k => .missing k
       | none => .ok) := by
  cases e with
  | null => exact absurd rfl h1
  | undefined => exact absurd rfl h2
  | bool b => rfl
  | num n => rfl
  | str s => rfl
  | arr xs => rfl
  | obj fs => rfl

/-- C1 counterexample: a completion output that parses to a JSON object with
ALL seven required keys present, but `playlist` bound to the falsy value
`false`, still fails with 500 and the `Missing required section: playlist`
message — the claim's `500 iff parse failure or a key is lacking` is false. -/
theorem present_falsy_section_still_500 :
    requiredSections.all (fun k =>
      (([("playlist", JVal.bool false), ("recipe", JVal.str "r"), ("movie", JVal.str "m"),
         ("colorPalette", JVal.str "c"), ("meditation", JVal.str "d"),
         ("outfit", JVal.str "o"), ("writing", JVal.str "w")]).find?
        (fun f => f.1 == k)).isSome) = true ∧
    (apiExperience
      ⟨fun s => if s == "X" then some (JVal.obj
          [("playlist", .bool false), ("recipe", .str "r"), ("movie", .str "m"),
           ("colorPalette", .str "c"), ("meditation", .str "d"), ("outfit", .str "o"),
           ("writing", .str "w")]) else none,
        .okContent "X", .fail none "t", fun _ => .err "s"⟩
      ⟨some "calm", none, none⟩).1 =
    ⟨500, .errorBody "Failed to fetch experience. Please try again later."
      (some "Missing required section: playlist")⟩ :=
  ⟨by decide, rfl⟩

/-- C1 amended: for a request reaching the content stage whose completion
call returns text, the response is 500 exactly when the text does not parse,
or parses to `null` (a `TypeError` surfaced as the generic 500), or the
first key in the fixed order whose value is absent OR FALSY exists; a parse
failure carries `Failed to parse AI response`, a missing/falsy key carries
`Missing required section: <key>` naming that first key, and a 500 response
never carries a JSON (partial-experience) body. -/
theorem experience_500_iff (env : ExpEnv) (mood : String) (ingP lmP : Option String)
    (ingredients : List JVal) (content : String)
    (hm : mood ≠ "")
    (hing : parseIngredientsParam env.jsonParse ingP = .ok ingredients)
    (hg : env.groq = .okContent content)
    (hnu : env.jsonParse content ≠ some .undefined) :
    ((apiExperience env ⟨some mood, ingP, lmP⟩).1.status = 500 ↔
      (env.jsonParse content = none ∨
       ∃ e, env.jsonParse content = some e ∧
         (e = .null ∨ (requiredSections.find? (fun k => !truthy (getProp e k))).isSome))) ∧
    (env.jsonParse content = none →
      (apiExperience env ⟨some mood, ingP, lmP⟩).1.body =
        .errorBody "Failed to fetch experience. Please try again later."
          (some "Failed to parse AI response")) ∧
    (∀ e k, env.jsonParse content = some e → e ≠ .null →
      requiredSections.find? (fun k2 => !truthy (getProp e k2)) = some k →
      (apiExperience env ⟨some mood, ingP, lmP⟩).1.body =
        .errorBody "Failed to fetch experience. Please try again later."
          (some ("Missing required section: " ++ k))) ∧
    ((apiExperience env ⟨some mood, ingP, lmP⟩).1.status = 500 →
      ∀ v, (apiExperience env ⟨some mood, ingP, lmP⟩).1.body ≠ .jsonBody v) := by
  rw [apiExperience_valid env mood ingP lmP ingredients hm hing]
  have hmiss : ∀ k, k ∈ requiredSections →
      experienceCatch none ("Missing required section: " ++ k) =
        ⟨500, .errorBody "Failed to fetch experience. Please try again later."
          (some ("Missing required section: " ++ k))⟩ := by
    intro k hk
    fin_cases hk <;> rfl
  cases hp : env.jsonParse content with
  | none =>
    rw [experienceGenerate_parse_fail env mood ingredients _ content hg hp]
    refine ⟨⟨fun _ => Or.inl rfl, fun _ => rfl⟩, fun _ => rfl, ?_, ?_⟩
    · intro e k hpe
      exact absurd hpe (fun hh => Option.noConfusion hh)
    · intro _ v h
      exact Body.noConfusion h
  | some e =>
    by_cases hnull : e = .null
    · subst hnull
      have hv : validateExperience .null =
          .typeError "Cannot read properties of null (reading \x27playlist\x27)" := rfl
      rw [experienceGenerate_typeError env mood ingredients _ content .null _ hg hp hv]
      refine ⟨⟨fun _ => Or.inr ⟨.null, rfl, Or.inl rfl⟩, fun _ => rfl⟩, ?_, ?_, ?_⟩
      · intro hcn
        exact Option.noConfusion hcn
      · intro e2 k hpe hne2 hf2
        exact absurd (Option.some.inj hpe).symm hne2
      · intro _ v h
        exact Body.noConfusion h
    · have hnu2 : e ≠ .undefined := by
        intro hh
        rw [hh] at hp
        exact hnu hp
      have hvchar := validate_not_null_not_undef e hnull hnu2
      cases hf : requiredSections.find? (fun k => !truthy (getProp e k)) with
      | some k =>
        have hv : validateExperience e = .missing k := by rw [hvchar, hf]
        have hk := List.mem_of_find?_eq_some hf
        rw [experienceGenerate_missing env mood ingredients _ content e k hg hp hv,
          hmiss k hk]
        refine ⟨⟨fun _ => Or.inr ⟨e, rfl, Or.inr (by rw [hf]; rfl)⟩, fun _ => rfl⟩,
          ?_, ?_, ?_⟩
        · intro hcn
          exact Option.noConfusion hcn
        · intro e2 k2 hpe hne2 hf2
          rw [← Option.some.inj hpe] at hf2
          rw [hf] at hf2
          rw [Option.some.inj hf2]
        · intro _ v h
          exact Body.noConfusion h
      | none =>
        have hv : validateExperience e = .ok := by rw [hvchar, hf]
        obtain ⟨v0, hv0⟩ := enrichPlaylistStep_200 env mood e
          [Call.groqCall (mkGroqExperienceRequest mood ingredients (lmP == some "true"))]
        have hr : (experienceGenerate env mood ingredients (lmP == some "true")).1 =
            ⟨200, .jsonBody v0⟩ := by
          simp only [experienceGenerate, hg, hp, hv]
          exact hv0
        rw [hr]
        refine ⟨⟨?_, ?_⟩, ?_, ?_, ?_⟩
        · intro h200
          simp at h200
        · intro hrhs
          rcases hrhs with hcn | ⟨e2, hpe, hdis⟩
          · exact Option.noConfusion hcn
          · have he2 := Option.some.inj hpe
            rcases hdis with hnul2 | hsome
            · rw [← he2] at hnul2
              exact absurd hnul2 hnull
            · rw [← he2, hf] at hsome
              exact absurd hsome (by decide)
        · intro hcn
          exact Option.noConfusion hcn
        · intro e2 k2 hpe hne2 hf2
          rw [← Option.some.inj hpe] at hf2
          rw [hf] at hf2
          exact Option.noConfusion hf2
        · intro h200
          simp at h200

/-- Witness for the amended C1 at a concrete input: unparseable content gives
the parse-failure 500 with its distinct message. -/
theorem experience_500_iff_witness :
    (apiExperience ⟨fun _ => none, .okContent "not json", .fail none "t", fun _ => .err "s"⟩
        ⟨some "calm", none, none⟩).1.status = 500 ∧
    (apiExperience ⟨fun _ => none, .okContent "not json", .fail none "t", fun _ => .err "s"⟩
        ⟨some "calm", none, none⟩).1.body =
      .errorBody "Failed to fetch experience. Please try again later."
        (some "Failed to parse AI response") := by
  have h := experience_500_iff
    ⟨fun _ => none, .okContent "not json", .fail none "t", fun _ => .err "s"⟩
    "calm" none none [] "not json" (by decide) rfl rfl
    (by intro hh; exact Option.noConfusion hh)
  exact ⟨h.1.mpr (Or.inl rfl), h.2.1 rfl⟩

/-! ## Claim C8: upstream status mapping -/

theorem experienceCatch_500 (st : Option Nat) (msg : String)
    (h1 : st ≠ some 401) (h2 : st ≠ some 429) :
    (experienceCatch st msg).status = 500 := by
  have b1 : (st == some 401) = false := beq_eq_false_iff_ne.mpr h1
  have b2 : (st == some 429) = false := beq_eq_false_iff_ne.mpr h2
  unfold experienceCatch
  simp only [b1, b2, Bool.false_eq_true, if_false]
  by_cases hgq : strContains msg "Groq" = true
  · simp [hgq]
  · simp [hgq]

/-- C8 counterexample: an upstream 401 at the Spotify token endpoint during
`/api/playlist` is wrapped by `getSpotifyToken` into a plain `Error` with no
attached response, so the route answers 500, not 401. -/
theorem playlist_upstream_401_not_surfaced :
    (⟨.fail (some 401) "Request failed with status code 401",
        fun _ => .err "e"⟩ : PlaylistEnv).token =
      .fail (some 401) "Request failed with status code 401" ∧
    apiPlaylist ⟨.fail (some 401) "Request failed with status code 401", fun _ => .err "e"⟩
        ⟨some "calm"⟩ =
      (⟨500, .errorBody "Failed to fetch playlist. Please try again later." none⟩,
       [Call.tokenCall]) :=
  ⟨rfl, rfl⟩

/-- C8 amended: on `/api/experience` a completion-provider failure with
upstream status 401 yields 401, with 429 yields 429, and with any other (or
no) upstream status yields 500; on `/api/playlist` an upstream failure of the
token call — WHATEVER its status, including 401 — yields 500, because
`getSpotifyToken` rethrows a plain `Error` without the response (search-call
failures are skipped by the fallback loop and end in 404, never 401). -/
theorem upstream_error_mapping (env : ExpEnv) (penv : PlaylistEnv)
    (mood pmood : String) (ingP lmP : Option String) (ingredients : List JVal)
    (hm : mood ≠ "") (hpm : pmood ≠ "")
    (hing : parseIngredientsParam env.jsonParse ingP = .ok ingredients) :
    (∀ msg, env.groq = .fail (some 401) msg →
      (apiExperience env ⟨some mood, ingP, lmP⟩).1 =
        ⟨401, .errorBody "Unauthorized - Please check your API credentials" none⟩) ∧
    (∀ msg, env.groq = .fail (some 429) msg →
      (apiExperience env ⟨some mood, ingP, lmP⟩).1 =
        ⟨429, .errorBody "Rate limit exceeded - Please try again later" none⟩) ∧
    (∀ st msg, env.groq = .fail st msg → st ≠ some 401 → st ≠ some 429 →
      (apiExperience env ⟨some mood, ingP, lmP⟩).1.status = 500) ∧
    (∀ st msg, penv.token = .fail st msg →
      apiPlaylist penv ⟨some pmood⟩ =
        (⟨500, .errorBody "Failed to fetch playlist. Please try again later." none⟩,
         [Call.tokenCall])) := by
  refine ⟨?_, ?_, ?_, ?_⟩
  · intro msg hgro
    rw [apiExperience_valid env mood ingP lmP ingredients hm hing]
    simp only [experienceGenerate, hgro]
    rfl
  · intro msg hgro
    rw [apiExperience_valid env mood ingP lmP ingredients hm hing]
    simp only [experienceGenerate, hgro]
    rfl
  · intro st msg hgro h1 h2
    rw [apiExperience_valid env mood ingP lmP ingredients hm hing]
    simp only [experienceGenerate, hgro]
    exact experienceCatch_500 st msg h1 h2
  · intro st msg htokf
    unfold apiPlaylist
    simp only [isEmpty_false_of_ne hpm, Bool.false_eq_true, if_false, htokf]
    rfl

/-- Witness for the amended C8 at concrete inputs: a Groq 401 surfaces as
401. -/
theorem upstream_error_mapping_witness :
    (apiExperience ⟨fun _ => none, .fail (some 401) "Request failed with status code 401",
        .fail none "t", fun _ => .err "s"⟩ ⟨some "calm", none, none⟩).1 =
      ⟨401, .errorBody "Unauthorized - Please check your API credentials" none⟩ :=
  (upstream_error_mapping
    ⟨fun _ => none, .fail (some 401) "Request failed with status code 401",
      .fail none "t", fun _ => .err "s"⟩
    ⟨.fail none "t", fun _ => .err "e"⟩
    "calm" "calm" none none [] (by decide) (by decide) rfl).1
    "Request failed with status code 401" rfl

end Vibeform
